import Mathlib

/-!
Verification of the UI Element Discovery & Adaptive Test-Step Execution Engine
of the E-Bank Android App Automation repository.

The development shallowly embeds the relevant Python code:
  * `Scanner`  — `element_scanner_day3.py` (`BankingElementScanner`):
    risk classification, locator generation, merge/deduplication;
  * `MainApp`  — `main.py` (`CustomTestBuilder`, `CompleteTestRunner`):
    test builder, smart element resolution, step execution, orchestration;
  * `Day6`     — `test_runner_day6.py` (`BankingTestRunner`):
    step execution with assertion framework and the stop-on-failure loop.

Python strings become `String`, dictionaries become structures, element
handles and live-session behaviour become explicit environment records,
and exceptions become `Except String` values.  Timestamps, logging,
screenshot file paths and sleeps carry no logic and are dropped or
abstracted into the environment records.
-/

/-- Python substring test on char lists: `needle in hay`. -/
def listInfix (needle hay : List Char) : Bool :=
  (List.range (hay.length + 1)).any (fun i => needle.isPrefixOf (hay.drop i))

/-- Python `needle in hay` for strings (contiguous substring). -/
def strIn (needle hay : String) : Bool :=
  listInfix needle.toList hay.toList

/-- Python `s.lower()` (ASCII lowering, as `str.lower` acts on these strings). -/
def pyLower (s : String) : String :=
  String.mk (s.toList.map Char.toLower)

/-- Suffix of `l` after the last occurrence of `sep`; `l` itself when `sep`
does not occur.  This is Python `l.split(sep)[-1]` for the non-self-
overlapping separators used in the source. -/
def afterLastSep (sep l : List Char) : List Char :=
  match (List.range (l.length + 1)).filter (fun i => sep.isPrefixOf (l.drop i)) with
  | [] => l
  | i :: is => l.drop ((i :: is).getLastD 0 + sep.length)

/-- Python `locator_value.split(":id/")[-1]` from `main.py`. -/
def trailingIdSegment (v : String) : String :=
  String.mk (afterLastSep ":id/".toList v.toList)

namespace Scanner

/-- Normalized attributes of one scanned element, as extracted by
`BankingElementScanner._process_element` (both the WebDriver branch and the
XML-attribute branch produce exactly these fields). -/
structure ElementInfo where
  class_name : String := ""
  resource_id : String := ""
  text : String := ""
  content_desc : String := ""
  bounds : String := ""
  clickable : Bool := false
  enabled : Bool := true
  password : Bool := false
deriving DecidableEq, Repr

/-- Safety levels produced by `_classify_element_safety`. -/
inductive SafetyLevel
  | HIGH_RISK
  | MEDIUM_RISK
  | LOW_RISK
  | UNKNOWN
  | SAFE
deriving DecidableEq, Repr

/-- Classification record returned by `_classify_element_safety`
(the `color` field is presentation-only and omitted). -/
structure SafetyClassification where
  level : SafetyLevel
  reason : String
  automation_allowed : Bool
  requires_caution : Bool := false
  requires_review : Bool := false
deriving DecidableEq, Repr

/-- `banking_patterns["HIGH_RISK"]` from `BankingElementScanner.__init__`. -/
def HIGH_RISK_patterns : List String :=
  ["transfer", "send", "pay", "withdraw", "deposit", "confirm", "authorize",
   "submit", "execute", "password", "pin", "cvv", "otp", "token", "biometric",
   "fingerprint", "face", "transaction", "amount", "balance", "account"]

/-- `banking_patterns["MEDIUM_RISK"]`. -/
def MEDIUM_RISK_patterns : List String :=
  ["login", "sign", "authenticate", "verify", "profile", "settings",
   "statement", "history", "details", "information", "search"]

/-- `banking_patterns["LOW_RISK"]`. -/
def LOW_RISK_patterns : List String :=
  ["menu", "home", "back", "close", "help", "about", "contact", "support",
   "news", "notification", "language", "theme", "version"]

/-- The lowercased combined text built at the top of
`_classify_element_safety`: `" ".join([resource_id, text, content_desc,
class_name]).lower()`. -/
def combined_text (e : ElementInfo) : String :=
  pyLower (String.intercalate " " [e.resource_id, e.text, e.content_desc, e.class_name])

/-- `BankingElementScanner._classify_element_safety`.  The keyword loops run
in source order (HIGH, then MEDIUM, then LOW, first match returning), the
password-flag check comes after them, then the interactive/default split. -/
def classify_element_safety (e : ElementInfo) : SafetyClassification :=
  match HIGH_RISK_patterns.find? (fun p => strIn p (combined_text e)) with
  | some p =>
    { level := .HIGH_RISK, reason := "Contains high-risk pattern: " ++ p,
      automation_allowed := false }
  | none =>
  match MEDIUM_RISK_patterns.find? (fun p => strIn p (combined_text e)) with
  | some p =>
    { level := .MEDIUM_RISK, reason := "Contains medium-risk pattern: " ++ p,
      automation_allowed := true, requires_caution := true }
  | none =>
  match LOW_RISK_patterns.find? (fun p => strIn p (combined_text e)) with
  | some p =>
    { level := .LOW_RISK, reason := "Contains low-risk pattern: " ++ p,
      automation_allowed := true }
  | none =>
  if e.password then
    { level := .HIGH_RISK, reason := "Password input field",
      automation_allowed := false }
  else if e.clickable || strIn "EditText" e.class_name then
    { level := .UNKNOWN, reason := "Interactive element - requires manual review",
      automation_allowed := true, requires_review := true }
  else
    { level := .SAFE, reason := "Non-interactive element",
      automation_allowed := true }

/-- Locator dictionary produced by `_generate_locators`; optional keys of the
Python dict become `Option` fields. -/
structure LocatorSet where
  resource_id : Option String
  xpath_resource_id : Option String
  text : Option String
  xpath_text : Option String
  accessibility_id : Option String
  xpath_content_desc : Option String
  class_name : Option String
  bounds : Option String
  xpath_combined : List String
  recommended : String
deriving DecidableEq, Repr

/-- `BankingElementScanner._generate_locators`.  Each key is added only when
its source attribute is non-empty (Python string truthiness); `recommended`
is then chosen by key presence in the source order. -/
def generate_locators (e : ElementInfo) : LocatorSet :=
  let rid : Option String := if e.resource_id ≠ "" then some e.resource_id else none
  let xrid : Option String :=
    if e.resource_id ≠ "" then
      some ("//*[@resource-id=\x27" ++ e.resource_id ++ "\x27]") else none
  let txt : Option String := if e.text ≠ "" then some e.text else none
  let xtxt : Option String :=
    if e.text ≠ "" then some ("//*[@text=\x27" ++ e.text ++ "\x27]") else none
  let acc : Option String := if e.content_desc ≠ "" then some e.content_desc else none
  let xacc : Option String :=
    if e.content_desc ≠ "" then
      some ("//*[@content-desc=\x27" ++ e.content_desc ++ "\x27]") else none
  let cls : Option String := if e.class_name ≠ "" then some e.class_name else none
  let bnd : Option String := if e.bounds ≠ "" then some e.bounds else none
  let combined : List String :=
    (if e.resource_id ≠ "" ∧ e.text ≠ "" then
      ["//*[@resource-id=\x27" ++ e.resource_id ++ "\x27 and @text=\x27" ++ e.text ++ "\x27]"]
     else []) ++
    (if e.class_name ≠ "" ∧ e.text ≠ "" then
      ["//" ++ e.class_name ++ "[@text=\x27" ++ e.text ++ "\x27]"]
     else [])
  let recommended :=
    if rid.isSome then "resource_id"
    else if acc.isSome then "accessibility_id"
    else if txt.isSome then "text"
    else "class_name"
  { resource_id := rid, xpath_resource_id := xrid, text := txt, xpath_text := xtxt,
    accessibility_id := acc, xpath_content_desc := xacc, class_name := cls,
    bounds := bnd, xpath_combined := combined, recommended := recommended }

/-- A raw discovered handle as seen by `_merge_and_deduplicate`: the three
attributes the dedup key reads, plus the `(source, extra_info)` payload the
merged triples carry. -/
structure RawElement where
  bounds : String := ""
  resource_id : String := ""
  text : String := ""
  source : String := ""
  extra_info : String := ""
deriving DecidableEq, Repr

/-- The `element_id = f"{bounds}_{resource_id}_{text}"` string built inside
`_merge_and_deduplicate`. -/
def dedup_key (e : RawElement) : String :=
  e.bounds ++ "_" ++ e.resource_id ++ "_" ++ e.text

/-- Inner loop of `_merge_and_deduplicate` over the flattened element lists,
threading the `seen_elements` set. -/
def dedupGo (seen : List String) : List RawElement → List RawElement
  | [] => []
  | e :: rest =>
    if dedup_key e ∈ seen then dedupGo seen rest
    else e :: dedupGo (dedup_key e :: seen) rest

/-- `BankingElementScanner._merge_and_deduplicate`: iterate over all lists in
order, keep the first occurrence of each dedup key, drop later ones. -/
def merge_and_deduplicate (element_lists : List (List RawElement)) : List RawElement :=
  dedupGo [] element_lists.flatten

/-- The `seen_elements` set contents after processing a list of elements. -/
def seenAfter (seen : List String) : List RawElement → List String
  | [] => seen
  | e :: rest =>
    if dedup_key e ∈ seen then seenAfter seen rest
    else seenAfter (dedup_key e :: seen) rest

end Scanner

deriving instance DecidableEq for Except

namespace MainApp

/-- One step dictionary, as built by `CustomTestBuilder.add_step` and read by
`CompleteTestRunner.execute_step` (`element_info` is display metadata and
omitted; `data` is `None` or a string). -/
structure MainStep where
  action : String := ""
  locator_strategy : String := "xpath"
  locator_value : String := ""
  data : Option String := none
  description : String := ""
  wait_time : Nat := 5
deriving DecidableEq, Repr

/-- Behaviour of one live element handle during a step: its attribute reads
and the outcome (`ok` or raised exception message) of each action call. -/
structure ElemBehavior where
  resource_id : String := ""
  text_attr : String := ""
  content_desc : String := ""
  clickR : Except String Unit := .ok ()
  clearR : Except String Unit := .ok ()
  sendKeysR : Except String Unit := .ok ()
  longPressR : Except String Unit := .ok ()
  textV : String := ""
  enabledV : Bool := true
deriving DecidableEq, Repr

/-- Behaviour of the automation session during one step: what the OK-button
special selectors find, what the primary `WebDriverWait` lookup yields
(`none` models its timeout), the elements enumerated by the `"//*"` fallback
query, and the screenshot / wait-parse outcomes. -/
structure SessionEnv where
  okResult : Option ElemBehavior := none
  primaryResult : Option ElemBehavior := none
  allElements : List ElemBehavior := []
  screenshotR : Option String := none
  waitOutcome : Except String String := .ok "2.0"
deriving DecidableEq, Repr

/-- Per-element test of the fallback scan in `find_element_smart`: direct
substring match on resource id / text / content description, then the
partial-ID match on the trailing `:id/` segment. -/
def fallbackMatch (locator_value : String) (el : ElemBehavior) : Bool :=
  strIn locator_value el.resource_id || strIn locator_value el.text_attr ||
    strIn locator_value el.content_desc ||
    (strIn ":id/" locator_value &&
      strIn (trailingIdSegment locator_value) el.resource_id)

/-- The OK-button special-case guard at the top of `find_element_smart`. -/
def okButtonCond (locator_value : String) : Bool :=
  strIn "button" (pyLower locator_value) &&
    (strIn "ok" (pyLower locator_value) || strIn "okay" (pyLower locator_value))

/-- `CompleteTestRunner.find_element_smart`: OK-button special selectors
first (when the guard fires), then the primary strategy lookup (only the
four known strategies perform one), then the enumerate-all fallback scan. -/
def find_element_smart (locator_type locator_value : String) (env : SessionEnv) :
    Option ElemBehavior :=
  let afterOk : Option ElemBehavior :=
    if okButtonCond locator_value then env.okResult else none
  match afterOk with
  | some e => some e
  | none =>
    let primary : Option ElemBehavior :=
      if locator_type = "id" ∨ locator_type = "xpath" ∨
          locator_type = "accessibility_id" ∨ locator_type = "class" then
        env.primaryResult
      else none
    match primary with
    | some e => some e
    | none => env.allElements.find? (fallbackMatch locator_value)

/-- Result dictionary of `CompleteTestRunner.execute_step` (statuses are the
lowercase strings the source uses). -/
structure MainStepResult where
  description : String
  action : String
  status : String
  message : String
deriving DecidableEq, Repr

/-- The `f"Typed: {text[:20]}{'...' if len(text) > 20 else ''}"` message. -/
def typedMessage (t : String) : String :=
  "Typed: " ++ String.mk (t.toList.take 20) ++ (if t.length > 20 then "..." else "")

/-- `CompleteTestRunner.execute_step`.  `wait`/`screenshot`/`swipe` return
early; every other action resolves an element first and fails with
`"Element not found: …"` when resolution yields nothing; every exception
raised by an action call is caught and turned into a failed result
(`perform_swipe` swallows its own errors, and the `type` action has its own
inner handler producing `"Failed to type: …"`). -/
def execute_step (step : MainStep) (env : SessionEnv) : MainStepResult :=
  let base : MainStepResult :=
    { description := step.description, action := step.action,
      status := "unknown", message := "" }
  if step.action = "wait" then
    match env.waitOutcome with
    | .ok t => { base with status := "passed", message := "Waited " ++ t ++ " seconds" }
    | .error e => { base with status := "failed", message := "Error: " ++ e }
  else if step.action = "screenshot" then
    match env.screenshotR with
    | some _ => { base with status := "passed", message := "Screenshot taken" }
    | none => { base with status := "failed", message := "Screenshot failed" }
  else if step.action = "swipe" then
    { base with status := "passed", message := "Swiped " ++ step.data.getD "up" }
  else
    match find_element_smart step.locator_strategy step.locator_value env with
    | none =>
      { base with
        status := "failed"
        message := "Element not found: " ++ step.locator_value }
    | some el =>
      if step.action = "click" ∨ step.action = "tap" then
        match el.clickR with
        | .ok _ => { base with status := "passed", message := "Click/Tap successful" }
        | .error e => { base with status := "failed", message := "Error: " ++ e }
      else if step.action = "type" then
        let text_to_type := step.data.getD ""
        match el.clearR with
        | .error e =>
          { base with status := "failed", message := "Failed to type: " ++ e }
        | .ok _ =>
          if text_to_type ≠ "" then
            match el.sendKeysR with
            | .ok _ =>
              { base with status := "passed", message := typedMessage text_to_type }
            | .error e =>
              { base with status := "failed", message := "Failed to type: " ++ e }
          else
            { base with status := "failed", message := "No text provided to type" }
      else if step.action = "clear" then
        match el.clearR with
        | .ok _ => { base with status := "passed", message := "Field cleared" }
        | .error e => { base with status := "failed", message := "Error: " ++ e }
      else if step.action = "long_press" then
        match el.longPressR with
        | .ok _ => { base with status := "passed", message := "Long press successful" }
        | .error e => { base with status := "failed", message := "Error: " ++ e }
      else if step.action = "assert_exists" then
        { base with status := "passed", message := "Element exists" }
      else if step.action = "assert_text" then
        let expected := step.data.getD ""
        { base with
          status := if el.textV = expected then "passed" else "failed",
          message := "Text: " ++ el.textV ++ " (Expected: " ++ expected ++ ")" }
      else if step.action = "assert_enabled" then
        if el.enabledV then
          { base with status := "passed", message := "Element enabled" }
        else
          { base with status := "failed", message := "Element disabled" }
      else
        { base with status := "failed", message := "Unknown action: " ++ step.action }

/-- The test-case dictionary returned by `CustomTestBuilder.build_test_case`
and consumed by `execute_custom_test` (timestamped description omitted). -/
structure MainTestCase where
  name : String := "Custom Test"
  stop_on_failure : Bool := false
  steps : List MainStep := []
deriving DecidableEq, Repr

/-- The per-step loop body of `execute_custom_test`: run every step through
`execute_step`, each against the session behaviour at that point of the run
(`envOf i` is the session behaviour when step `i` executes). -/
def runSteps (envOf : Nat → SessionEnv) : Nat → List MainStep → List MainStepResult
  | _, [] => []
  | i, s :: rest => execute_step s (envOf i) :: runSteps envOf (i + 1) rest

/-- The overall-status derivation at the bottom of `execute_custom_test`. -/
def derive_custom_status (rs : List MainStepResult) : String :=
  let failed_count := rs.countP (fun s => s.status == "failed")
  if failed_count = 0 then "PASSED"
  else if failed_count < rs.length then "PARTIAL"
  else "FAILED"

/-- Aggregate result of `execute_custom_test` (timestamps, duration and the
screenshot list carry no decision logic and are omitted). -/
structure CustomRunResult where
  test_name : String
  steps : List MainStepResult
  status : String
deriving DecidableEq, Repr

/-- `CompleteTestRunner.execute_custom_test`: executes every step in order
(the loop reads `test_case` only for its steps — `stop_on_failure` is never
consulted) and derives the overall status from the failed-step count. -/
def execute_custom_test (tc : MainTestCase) (envOf : Nat → SessionEnv) : CustomRunResult :=
  let rs := runSteps envOf 0 tc.steps
  { test_name := tc.name, steps := rs, status := derive_custom_status rs }

/-- `CustomTestBuilder.remove_step`: bounds-checked `del`. -/
def remove_step (steps : List MainStep) (index : Int) : List MainStep :=
  if 0 ≤ index ∧ index < (steps.length : Int) then
    steps.eraseIdx index.toNat
  else steps

/-- `CustomTestBuilder.move_step_up`: bounds-checked swap of the entries at
`index` and `index - 1` (simultaneous assignment in the source). -/
def move_step_up (steps : List MainStep) (index : Int) : List MainStep :=
  if 0 < index ∧ index < (steps.length : Int) then
    let i := index.toNat
    match steps[i]?, steps[i - 1]? with
    | some a, some b => (steps.set i b).set (i - 1) a
    | _, _ => steps
  else steps

/-- `CustomTestBuilder.move_step_down`: bounds-checked swap of the entries at
`index` and `index + 1`. -/
def move_step_down (steps : List MainStep) (index : Int) : List MainStep :=
  if 0 ≤ index ∧ index < (steps.length : Int) - 1 then
    let i := index.toNat
    match steps[i]?, steps[i + 1]? with
    | some a, some b => (steps.set i b).set (i + 1) a
    | _, _ => steps
  else steps

/-- `CustomTestBuilder.clear_steps`. -/
def clear_steps (_steps : List MainStep) : List MainStep := []

/-- `CustomTestBuilder.add_step` (appends the freshly built step dict). -/
def add_step (steps : List MainStep) (s : MainStep) : List MainStep :=
  steps ++ [s]

/-- `CustomTestBuilder.build_test_case`: snapshots the current step list
(`self.test_steps.copy()` in the source) into a test case with
`stop_on_failure = False`. -/
def build_test_case (name : String) (steps : List MainStep) : MainTestCase :=
  { name := name, stop_on_failure := false, steps := steps }

/-- One reorder request against the builder, for stating invariance of the
step list under arbitrary sequences of `move_step_up`/`move_step_down`. -/
inductive MoveOp
  | up (index : Int)
  | down (index : Int)
deriving DecidableEq, Repr

/-- Apply a sequence of reorder operations to the builder's step list. -/
def applyMoves (ops : List MoveOp) (steps : List MainStep) : List MainStep :=
  ops.foldl
    (fun s o => match o with
      | .up i => move_step_up s i
      | .down i => move_step_down s i)
    steps

/-- The step's element-action call raises `err` in environment `env`, at the
point `execute_step` would issue it: the element resolved, and following the
source's control flow the first raising call is `err`. -/
def raisesDuringAction (step : MainStep) (env : SessionEnv) (err : String) : Prop :=
  ∃ el, find_element_smart step.locator_strategy step.locator_value env = some el ∧
    (((step.action = "click" ∨ step.action = "tap") ∧ el.clickR = .error err) ∨
     (step.action = "type" ∧
       (el.clearR = .error err ∨
        (el.clearR = .ok () ∧ step.data.getD "" ≠ "" ∧ el.sendKeysR = .error err))) ∨
     (step.action = "clear" ∧ el.clearR = .error err) ∨
     (step.action = "long_press" ∧ el.longPressR = .error err))

end MainApp

namespace Day6

/-- Statuses of `AssertionResult` in `test_runner_day6.py`. -/
inductive AssertionResult
  | PASSED
  | FAILED
  | SKIPPED
  | ERROR
deriving DecidableEq, Repr

/-- The member values of the `ActionType` enum: `ActionType(s)` succeeds
exactly for these strings and raises `ValueError` otherwise. -/
def validActions : List String :=
  ["click", "type", "clear", "wait", "assert_exists", "assert_text",
   "assert_enabled", "screenshot", "swipe"]

/-- One step dictionary as read by `BankingTestRunner.execute_step`. -/
structure D6Step where
  action : String := ""
  locator_strategy : String := "id"
  locator_value : String := ""
  data : Option String := none
  expected_value : Option String := none
  description : String := ""
  wait_time : Nat := 10
deriving DecidableEq, Repr

/-- The two exception classes `execute_step` distinguishes:
`TimeoutException` from element resolution, and every other exception with
its message. -/
inductive D6Exc
  | timeoutExc
  | otherExc (msg : String)
deriving DecidableEq, Repr

/-- Session behaviour for one Day-6 step: the outcome of `_find_element`'s
`WebDriverWait` (reusing `MainApp.ElemBehavior` for the handle's attribute
reads and action-call outcomes), whether `save_screenshot` succeeds, and the
`time.sleep(data)` outcome for `wait` steps. -/
structure D6Env where
  findR : Except D6Exc MainApp.ElemBehavior := .error .timeoutExc
  screenshotOk : Bool := true
  waitOutcome : Except String String := .ok "2"
deriving DecidableEq, Repr

/-- Runner configuration: whether a safety manager was supplied. -/
structure D6Config where
  safetyManager : Bool := false
deriving DecidableEq, Repr

/-- `forbidden_keywords` in `BankingTestRunner._is_action_safe`. -/
def forbidden_keywords : List String :=
  ["transfer", "payment", "send_money", "confirm_transaction"]

/-- `BankingTestRunner._is_action_safe`. -/
def is_action_safe (step : D6Step) : Bool :=
  if "assert".toList.isPrefixOf step.action.toList then true
  else forbidden_keywords.all (fun k => !(strIn k (pyLower step.locator_value)))

/-- `BankingTestRunner._find_element`: the four known strategies run the
`WebDriverWait` lookup; any other strategy raises `ValueError`. -/
def d6_find (strategy : String) (env : D6Env) : Except D6Exc MainApp.ElemBehavior :=
  if strategy = "id" ∨ strategy = "xpath" ∨ strategy = "accessibility_id" ∨
      strategy = "class" then
    env.findR
  else .error (.otherExc ("Unknown locator strategy: " ++ strategy))

/-- Step-result dictionary of `BankingTestRunner.execute_step` (screenshot
path and timestamp omitted). -/
structure D6StepResult where
  description : String
  action : String
  status : AssertionResult
  message : String
deriving DecidableEq, Repr

/-- Re-raise an element action-call outcome as a generic exception. -/
def liftExc (r : Except String Unit) : Except D6Exc Unit :=
  match r with
  | .ok _ => .ok ()
  | .error e => .error (.otherExc e)

/-- The body of the `try:` block of `BankingTestRunner.execute_step`:
`ActionType` parse, safety gate, element resolution, then the action
dispatch in source order.  A returned `.error` is an escaped exception. -/
def execute_step_body (cfg : D6Config) (step : D6Step) (env : D6Env)
    (base : D6StepResult) : Except D6Exc D6StepResult :=
  if step.action ∉ validActions then
    .error (.otherExc ("\x27" ++ step.action ++ "\x27 is not a valid ActionType"))
  else if cfg.safetyManager ∧ is_action_safe step = false then
    .ok { base with status := .SKIPPED, message := "Skipped due to safety rules" }
  else do
    let el ← d6_find step.locator_strategy env
    if step.action = "click" then
      let _ ← liftExc el.clickR
      pure { base with status := .PASSED, message := "Click successful" }
    else if step.action = "type" then
      let _ ← liftExc el.clearR
      let _ ← liftExc el.sendKeysR
      pure { base with status := .PASSED, message := "Typed text successfully" }
    else if step.action = "clear" then
      let _ ← liftExc el.clearR
      pure { base with status := .PASSED, message := "Field cleared" }
    else if step.action = "assert_exists" then
      pure { base with status := .PASSED, message := "Element exists" }
    else if step.action = "assert_text" then
      let expected := step.expected_value.getD ""
      if el.textV = expected then
        pure { base with
               status := .PASSED
               message := "Text matches: \x27" ++ expected ++ "\x27" }
      else
        pure { base with
               status := .FAILED
               message := "Text mismatch. Expected: \x27" ++ expected ++
                 "\x27, Actual: \x27" ++ el.textV ++ "\x27" }
    else if step.action = "assert_enabled" then
      if el.enabledV then
        pure { base with status := .PASSED, message := "Element is enabled" }
      else
        pure { base with status := .FAILED, message := "Element is disabled" }
    else if step.action = "screenshot" then
      if env.screenshotOk then
        pure { base with status := .PASSED, message := "Screenshot captured" }
      else
        pure base
    else if step.action = "wait" then
      match env.waitOutcome with
      | .ok t =>
        pure { base with status := .PASSED, message := "Waited " ++ t ++ " seconds" }
      | .error e => .error (.otherExc e)
    else
      pure base

/-- `BankingTestRunner.execute_step`: run the body and convert an escaped
`TimeoutException` to `FAILED` and any other exception to `ERROR`, exactly
as the two `except` clauses do.  (`swipe` is a valid `ActionType` with no
dispatch branch, so it falls through with the initial `SKIPPED` status.) -/
def execute_step (cfg : D6Config) (step : D6Step) (env : D6Env) : D6StepResult :=
  let base : D6StepResult :=
    { description := step.description, action := step.action,
      status := .SKIPPED, message := "" }
  match execute_step_body cfg step env base with
  | .ok r => r
  | .error .timeoutExc =>
    { base with
      status := .FAILED
      message := "Element not found: " ++ step.locator_value }
  | .error (.otherExc e) => { base with status := .ERROR, message := "Error: " ++ e }

/-- Aggregate result of `BankingTestRunner.run_test_case` (timestamps
omitted; `none` in the fourth component of the loop state means the status
was never overwritten and stays `"PASSED"`). -/
structure D6RunResults where
  test_name : String
  steps : List D6StepResult
  total_steps : Nat
  passed_steps : Nat
  failed_steps : Nat
  status : String
deriving DecidableEq, Repr

/-- The `for` loop of `run_test_case` over the steps, each paired with the
session behaviour at its execution time: returns the appended step results,
the two counters, and the status override set at a stop-on-failure break. -/
def runLoop (cfg : D6Config) (stop : Bool) :
    List (D6Step × D6Env) → List D6StepResult × Nat × Nat × Option String
  | [] => ([], 0, 0, none)
  | (s, env) :: rest =>
    let r := execute_step cfg s env
    if r.status = .PASSED then
      let (rs, p, f, st) := runLoop cfg stop rest
      (r :: rs, p + 1, f, st)
    else if r.status = .FAILED then
      if stop then ([r], 0, 1, some "FAILED")
      else
        let (rs, p, f, st) := runLoop cfg stop rest
        (r :: rs, p, f + 1, st)
    else
      let (rs, p, f, st) := runLoop cfg stop rest
      (r :: rs, p, f, st)

/-- `BankingTestRunner.run_test_case` for a test case with the given
`stop_on_failure` flag (`test_case.get("stop_on_failure", True)` defaults it
to true) whose steps execute against the paired session behaviours. -/
def run_test_case (cfg : D6Config) (name : String) (stop_on_failure : Bool)
    (steps : List (D6Step × D6Env)) : D6RunResults :=
  let (rs, p, f, st) := runLoop cfg stop_on_failure steps
  { test_name := name, steps := rs, total_steps := steps.length,
    passed_steps := p, failed_steps := f, status := st.getD "PASSED" }

/-- The Day-6 step's element-action call raises `err`: the action parses,
no safety gate fires, the element resolves, and following the dispatch
order the first raising call is `err`. -/
def d6_raisesDuringAction (cfg : D6Config) (step : D6Step) (env : D6Env)
    (err : String) : Prop :=
  cfg.safetyManager = false ∧
  (step.locator_strategy = "id" ∨ step.locator_strategy = "xpath" ∨
    step.locator_strategy = "accessibility_id" ∨ step.locator_strategy = "class") ∧
  ∃ el, env.findR = .ok el ∧
    ((step.action = "click" ∧ el.clickR = .error err) ∨
     (step.action = "type" ∧
       (el.clearR = .error err ∨
        (el.clearR = .ok () ∧ el.sendKeysR = .error err))) ∨
     (step.action = "clear" ∧ el.clearR = .error err))

end Day6

/-- Fixture: a Day-6 step/session pair whose execution passes. -/
def d6Pass : Day6.D6Step × Day6.D6Env :=
  ({ action := "assert_exists", locator_strategy := "id",
     locator_value := "menu_button" },
   { findR := .ok {} })

/-- Fixture: a Day-6 step/session pair that fails (resolution times out). -/
def d6Fail : Day6.D6Step × Day6.D6Env :=
  ({ action := "click", locator_strategy := "id",
     locator_value := "missing_button" },
   { findR := .error .timeoutExc })

/-- Fixture: a Day-6 step/session pair that errors (the click call raises). -/
def d6Err : Day6.D6Step × Day6.D6Env :=
  ({ action := "click", locator_strategy := "id", locator_value := "btn" },
   { findR := .ok { clickR := .error "boom" } })

/-- Fixture: a click step for the main runner. -/
def mClickStep : MainApp.MainStep :=
  { action := "click", locator_strategy := "id", locator_value := "menu" }

/-- Fixture: session behaviour whose primary lookup resolves an element. -/
def mEnvFound : MainApp.SessionEnv := { primaryResult := some {} }

/-- Fixture: session behaviour where nothing resolves. -/
def mEnvMissing : MainApp.SessionEnv := {}

theorem dedupGo_append (seen : List String) (xs ys : List Scanner.RawElement) :
    Scanner.dedupGo seen (xs ++ ys) =
      Scanner.dedupGo seen xs ++ Scanner.dedupGo (Scanner.seenAfter seen xs) ys := by
  induction xs generalizing seen with
  | nil => simp [Scanner.dedupGo, Scanner.seenAfter]
  | cons e rest ih =>
    by_cases h : Scanner.dedup_key e ∈ seen <;>
      simp [Scanner.dedupGo, Scanner.seenAfter, h, ih]

theorem seenAfter_mono (seen : List String) (xs : List Scanner.RawElement)
    (k : String) (hk : k ∈ seen) : k ∈ Scanner.seenAfter seen xs := by
  induction xs generalizing seen with
  | nil => simpa [Scanner.seenAfter] using hk
  | cons e rest ih =>
    by_cases h : Scanner.dedup_key e ∈ seen
    · simpa [Scanner.seenAfter, h] using ih seen hk
    · simpa [Scanner.seenAfter, h] using ih (Scanner.dedup_key e :: seen) (by simp [hk])

theorem key_mem_seenAfter (seen : List String) (xs : List Scanner.RawElement)
    (e : Scanner.RawElement) (he : e ∈ xs) :
    Scanner.dedup_key e ∈ Scanner.seenAfter seen xs := by
  induction xs generalizing seen with
  | nil => cases he
  | cons x rest ih =>
    rcases List.mem_cons.mp he with rfl | hmem
    · by_cases h : Scanner.dedup_key e ∈ seen
      · simpa [Scanner.seenAfter, h] using seenAfter_mono seen rest _ h
      · simpa [Scanner.seenAfter, h] using
          seenAfter_mono (Scanner.dedup_key e :: seen) rest _ (by simp)
    · by_cases h : Scanner.dedup_key x ∈ seen <;>
        simpa [Scanner.seenAfter, h] using ih _ hmem

theorem dedupGo_eq_nil (seen : List String) (xs : List Scanner.RawElement)
    (h : ∀ e ∈ xs, Scanner.dedup_key e ∈ seen) : Scanner.dedupGo seen xs = [] := by
  induction xs with
  | nil => simp [Scanner.dedupGo]
  | cons e rest ih =>
    have he := h e (by simp)
    simp only [Scanner.dedupGo, he, if_pos]
    exact ih fun x hx => h x (by simp [hx])

theorem dedupGo_length_le (seen : List String) (xs : List Scanner.RawElement) :
    (Scanner.dedupGo seen xs).length ≤ xs.length := by
  induction xs generalizing seen with
  | nil => simp [Scanner.dedupGo]
  | cons e rest ih =>
    by_cases h : Scanner.dedup_key e ∈ seen
    · simp only [Scanner.dedupGo, h, if_pos]
      exact Nat.le_succ_of_le (ih seen)
    · simp only [Scanner.dedupGo, h, if_neg, not_false_iff, List.length_cons]
      exact Nat.succ_le_succ (ih _)

/-- Claim C1 is false on the code: the keyword rules of
`_classify_element_safety` are evaluated before the password-flag check, so
an element whose password flag is true but whose resource id contains the
medium-risk keyword `"login"` is classified `MEDIUM_RISK`, not `HIGH_RISK`. -/
theorem c1_counterexample :
    ({ resource_id := "login_field", password := true } : Scanner.ElementInfo).password
        = true ∧
    (Scanner.classify_element_safety
        { resource_id := "login_field", password := true }).level =
      Scanner.SafetyLevel.MEDIUM_RISK ∧
    (Scanner.classify_element_safety
        { resource_id := "login_field", password := true }).level ≠
      Scanner.SafetyLevel.HIGH_RISK := by
  refine ⟨rfl, by decide, by decide⟩

/-- Claim C1 (amended): the password-flag rule of
`_classify_element_safety` is evaluated after the three keyword rules, so an
element with password flag true is classified `HIGH_RISK` with reason
"Password input field" exactly when none of the HIGH/MEDIUM/LOW keyword sets
matches its combined lowercased text; a password element matching a keyword
first receives that keyword rule's level instead. -/
theorem c1_password_rule_after_keywords (e : Scanner.ElementInfo)
    (hp : e.password = true)
    (hH : Scanner.HIGH_RISK_patterns.find?
      (fun p => strIn p (Scanner.combined_text e)) = none)
    (hM : Scanner.MEDIUM_RISK_patterns.find?
      (fun p => strIn p (Scanner.combined_text e)) = none)
    (hL : Scanner.LOW_RISK_patterns.find?
      (fun p => strIn p (Scanner.combined_text e)) = none) :
    Scanner.classify_element_safety e =
      { level := .HIGH_RISK, reason := "Password input field",
        automation_allowed := false } := by
  unfold Scanner.classify_element_safety
  rw [hH, hM, hL, hp]
  rfl

/-- Witness for the amended claim C1 at a concrete password element with no
keyword match. -/
theorem c1_witness :
    Scanner.classify_element_safety { resource_id := "user_box", password := true } =
      { level := .HIGH_RISK, reason := "Password input field",
        automation_allowed := false } :=
  c1_password_rule_after_keywords
    { resource_id := "user_box", password := true }
    rfl (by decide) (by decide) (by decide)

/-- Claim C2 is false on the code: the dedup key is the joined string
`f"{bounds}_{resource_id}_{text}"`, not the `(bounds, resourceId, text)`
tuple.  Two raw handles whose tuples differ — `("b_a", "b", "x")` versus
`("b", "a_b", "x")` — produce the same joined key `"b_a_b_x"`, so the second
is dropped by the merge although the claim says both must survive. -/
theorem c2_counterexample :
    (({ bounds := "b_a", resource_id := "b", text := "x" } : Scanner.RawElement).bounds,
     ({ bounds := "b_a", resource_id := "b", text := "x" } : Scanner.RawElement).resource_id,
     ({ bounds := "b_a", resource_id := "b", text := "x" } : Scanner.RawElement).text) ≠
      (({ bounds := "b", resource_id := "a_b", text := "x" } : Scanner.RawElement).bounds,
       ({ bounds := "b", resource_id := "a_b", text := "x" } : Scanner.RawElement).resource_id,
       ({ bounds := "b", resource_id := "a_b", text := "x" } : Scanner.RawElement).text) ∧
    Scanner.merge_and_deduplicate
        [[{ bounds := "b_a", resource_id := "b", text := "x" },
          { bounds := "b", resource_id := "a_b", text := "x" }]] =
      [{ bounds := "b_a", resource_id := "b", text := "x" }] := by
  exact ⟨by decide, by decide⟩

/-- Claim C2 (amended): the merge deduplicates by the joined string key
`bounds ++ "_" ++ resourceId ++ "_" ++ text` with the first occurrence
winning (this agrees with the `(bounds, resourceId, text)` tuple unless
underscores inside the fields align two distinct tuples).  Merging a list
with itself equals merging it once, the merged length is bounded by the sum
of the input lengths, and the two handles with identical bounds
`"[0,0][100,50]"`, identical resource id `"btn1"` and differing text `"OK"`
versus `""` both survive. -/
theorem c2_merge_dedup_amended :
    (∀ X : List Scanner.RawElement,
      Scanner.merge_and_deduplicate [X, X] = Scanner.merge_and_deduplicate [X]) ∧
    (∀ X Y : List Scanner.RawElement,
      (Scanner.merge_and_deduplicate [X, Y]).length ≤ X.length + Y.length) ∧
    Scanner.merge_and_deduplicate
        [[{ bounds := "[0,0][100,50]", resource_id := "btn1", text := "OK" },
          { bounds := "[0,0][100,50]", resource_id := "btn1", text := "" }]] =
      [{ bounds := "[0,0][100,50]", resource_id := "btn1", text := "OK" },
       { bounds := "[0,0][100,50]", resource_id := "btn1", text := "" }] := by
  refine ⟨?_, ?_, by decide⟩
  · intro X
    show Scanner.dedupGo [] ([X, X] : List _).flatten =
      Scanner.dedupGo [] ([X] : List _).flatten
    have hflat : ([X, X] : List (List Scanner.RawElement)).flatten = X ++ X := by
      simp
    have hflat1 : ([X] : List (List Scanner.RawElement)).flatten = X := by simp
    rw [hflat, hflat1, dedupGo_append]
    have : Scanner.dedupGo (Scanner.seenAfter [] X) X = [] :=
      dedupGo_eq_nil _ _ fun e he => key_mem_seenAfter [] X e he
    rw [this, List.append_nil]
  · intro X Y
    show (Scanner.dedupGo [] ([X, Y] : List _).flatten).length ≤ X.length + Y.length
    have hflat : ([X, Y] : List (List Scanner.RawElement)).flatten = X ++ Y := by
      simp
    rw [hflat]
    calc (Scanner.dedupGo [] (X ++ Y)).length ≤ (X ++ Y).length :=
          dedupGo_length_le [] (X ++ Y)
      _ = X.length + Y.length := by simp

theorem runLoop_stop_first_failed (cfg : Day6.D6Config)
    (pre : List (Day6.D6Step × Day6.D6Env)) (b : Day6.D6Step × Day6.D6Env)
    (post : List (Day6.D6Step × Day6.D6Env))
    (hpre : ∀ p ∈ pre, (Day6.execute_step cfg p.1 p.2).status ≠ .FAILED)
    (hb : (Day6.execute_step cfg b.1 b.2).status = .FAILED) :
    ∃ p f, Day6.runLoop cfg true (pre ++ b :: post) =
      (pre.map (fun q => Day6.execute_step cfg q.1 q.2) ++
        [Day6.execute_step cfg b.1 b.2], p, f, some "FAILED") := by
  induction pre with
  | nil =>
    refine ⟨0, 1, ?_⟩
    obtain ⟨bs, be⟩ := b
    simp only at hb
    simp [Day6.runLoop, hb]
  | cons x pre ih =>
    obtain ⟨p, f, hih⟩ := ih fun q hq => hpre q (by simp [hq])
    have hx : (Day6.execute_step cfg x.1 x.2).status ≠ .FAILED := hpre x (by simp)
    obtain ⟨xs, xe⟩ := x
    simp only at hih hx
    by_cases hp : (Day6.execute_step cfg xs xe).status = .PASSED
    · exact ⟨p + 1, f, by simp [Day6.runLoop, hp, hih]⟩
    · exact ⟨p, f, by simp [Day6.runLoop, hp, hx, hih]⟩

/-- Claim C3 is false on the code: with `stop_on_failure` true,
`run_test_case` halts only on a `FAILED` step; a step whose status is
`ERROR` (here: the click call raises) does not halt the loop, the following
step still executes and appears in the result, and the overall status even
stays `"PASSED"`. -/
theorem c3_counterexample :
    (Day6.execute_step {} d6Err.1 d6Err.2).status = .ERROR ∧
    (Day6.run_test_case {} "t" true [d6Err, d6Pass]).steps.length = 2 ∧
    (Day6.run_test_case {} "t" true [d6Err, d6Pass]).status = "PASSED" := by
  exact ⟨by decide, by decide, by decide⟩

/-- Claim C3 (amended): with `stop_on_failure` true the orchestrator halts
immediately after the first step whose status is `FAILED` (and only on
`FAILED` — `ERROR` steps do not halt): the remaining steps are not executed
and do not appear in the result, and the overall status is `FAILED`; for
steps `[A(pass), B(fail), C(pass)]` the result has exactly 2 step results. -/
theorem c3_halts_on_first_failed (cfg : Day6.D6Config) (name : String)
    (pre : List (Day6.D6Step × Day6.D6Env)) (b : Day6.D6Step × Day6.D6Env)
    (post : List (Day6.D6Step × Day6.D6Env))
    (hpre : ∀ p ∈ pre, (Day6.execute_step cfg p.1 p.2).status ≠ .FAILED)
    (hb : (Day6.execute_step cfg b.1 b.2).status = .FAILED) :
    (Day6.run_test_case cfg name true (pre ++ b :: post)).steps =
      pre.map (fun q => Day6.execute_step cfg q.1 q.2) ++
        [Day6.execute_step cfg b.1 b.2] ∧
    (Day6.run_test_case cfg name true (pre ++ b :: post)).status = "FAILED" ∧
    (Day6.run_test_case cfg name true (pre ++ b :: post)).steps.length =
      pre.length + 1 := by
  obtain ⟨p, f, h⟩ := runLoop_stop_first_failed cfg pre b post hpre hb
  refine ⟨?_, ?_, ?_⟩ <;> simp [Day6.run_test_case, h]

/-- Witness for the amended claim C3: the `[A(pass), B(fail), C(pass)]`
scenario with `stop_on_failure = true` yields exactly 2 step results and
overall status `FAILED`. -/
theorem c3_witness :
    (Day6.run_test_case {} "scenario" true [d6Pass, d6Fail, d6Pass]).steps.length = 2 ∧
    (Day6.run_test_case {} "scenario" true [d6Pass, d6Fail, d6Pass]).status = "FAILED" := by
  have h := c3_halts_on_first_failed {} "scenario" [d6Pass] d6Fail [d6Pass]
    (by decide) (by decide)
  rw [show ([d6Pass, d6Fail, d6Pass] : List (Day6.D6Step × Day6.D6Env)) =
    [d6Pass] ++ d6Fail :: [d6Pass] from rfl]
  exact ⟨h.2.2, h.2.1⟩

theorem main_execute_step_status (step : MainApp.MainStep) (env : MainApp.SessionEnv) :
    (MainApp.execute_step step env).status = "passed" ∨
      (MainApp.execute_step step env).status = "failed" := by
  by_cases h1 : step.action = "wait"
  · cases hw : env.waitOutcome <;> simp [MainApp.execute_step, h1, hw]
  by_cases h2 : step.action = "screenshot"
  · cases hs : env.screenshotR <;> simp [MainApp.execute_step, h1, h2, hs]
  by_cases h3 : step.action = "swipe"
  · simp [MainApp.execute_step, h1, h2, h3]
  cases hf : MainApp.find_element_smart step.locator_strategy step.locator_value env with
  | none => simp [MainApp.execute_step, h1, h2, h3, hf]
  | some el =>
    by_cases h4 : step.action = "click" ∨ step.action = "tap"
    · cases hc : el.clickR <;> simp [MainApp.execute_step, h1, h2, h3, hf, h4, hc]
    by_cases h5 : step.action = "type"
    · cases hc : el.clearR with
      | error e => simp [MainApp.execute_step, h1, h2, h3, hf, h4, h5, hc]
      | ok u =>
        by_cases hd : step.data.getD "" = ""
        · simp [MainApp.execute_step, h1, h2, h3, hf, h4, h5, hc, hd]
        · cases hk : el.sendKeysR <;>
            simp [MainApp.execute_step, h1, h2, h3, hf, h4, h5, hc, hd, hk]
    by_cases h6 : step.action = "clear"
    · cases hc : el.clearR <;> simp [MainApp.execute_step, h1, h2, h3, hf, h4, h5, h6, hc]
    by_cases h7 : step.action = "long_press"
    · cases hl : el.longPressR <;>
        simp [MainApp.execute_step, h1, h2, h3, hf, h4, h5, h6, h7, hl]
    by_cases h8 : step.action = "assert_exists"
    · simp [MainApp.execute_step, h1, h2, h3, hf, h4, h5, h6, h7, h8]
    by_cases h9 : step.action = "assert_text"
    · by_cases ht : el.textV = step.data.getD "" <;>
        simp [MainApp.execute_step, h1, h2, h3, hf, h4, h5, h6, h7, h8, h9, ht]
    by_cases h10 : step.action = "assert_enabled"
    · by_cases he : el.enabledV = true <;>
        simp [MainApp.execute_step, h1, h2, h3, hf, h4, h5, h6, h7, h8, h9, h10, he]
    simp [MainApp.execute_step, h1, h2, h3, hf, h4, h5, h6, h7, h8, h9, h10]

theorem runSteps_mem (envOf : Nat → MainApp.SessionEnv) :
    ∀ (l : List MainApp.MainStep) (i : Nat) (r : MainApp.MainStepResult),
      r ∈ MainApp.runSteps envOf i l →
      r.status = "passed" ∨ r.status = "failed" := by
  intro l
  induction l with
  | nil => intro i r hr; simp [MainApp.runSteps] at hr
  | cons s rest ih =>
    intro i r hr
    rcases List.mem_cons.mp hr with rfl | hmem
    · exact main_execute_step_status s (envOf i)
    · exact ih (i + 1) r hmem

theorem countP_failed_all_passed (rs : List MainApp.MainStepResult)
    (h : ∀ r ∈ rs, r.status = "passed") :
    rs.countP (fun s => s.status == "failed") = 0 := by
  rw [List.countP_eq_zero]
  intro r hr
  have := h r hr
  simp [this]

theorem countP_failed_all_failed (rs : List MainApp.MainStepResult)
    (h : ∀ r ∈ rs, r.status = "failed") :
    rs.countP (fun s => s.status == "failed") = rs.length := by
  induction rs with
  | nil => simp
  | cons r rest ih =>
    have hr := h r (by simp)
    rw [List.countP_cons]
    simp only [hr]
    rw [ih fun x hx => h x (by simp [hx])]
    simp [List.length_cons]

/-- Claim C4: the overall status of `execute_custom_test` is derived from
the executed steps — all passed gives `PASSED`, no passed step with at least
one failure gives `FAILED`, a mix gives `PARTIAL`, the empty step list gives
`PASSED` with zero executed steps — and the `[A(pass), B(fail), C(pass)]`
scenario with `stop_on_failure = false` yields 3 step results and overall
status `PARTIAL`. -/
theorem c4_overall_status_derivation :
    (∀ (tc : MainApp.MainTestCase) (envOf : Nat → MainApp.SessionEnv),
      (∀ r ∈ (MainApp.execute_custom_test tc envOf).steps, r.status = "passed") →
      (MainApp.execute_custom_test tc envOf).status = "PASSED") ∧
    (∀ (tc : MainApp.MainTestCase) (envOf : Nat → MainApp.SessionEnv),
      (MainApp.execute_custom_test tc envOf).steps ≠ [] →
      (∀ r ∈ (MainApp.execute_custom_test tc envOf).steps, r.status ≠ "passed") →
      (MainApp.execute_custom_test tc envOf).status = "FAILED") ∧
    (∀ (tc : MainApp.MainTestCase) (envOf : Nat → MainApp.SessionEnv),
      (∃ r ∈ (MainApp.execute_custom_test tc envOf).steps, r.status = "passed") →
      (∃ r ∈ (MainApp.execute_custom_test tc envOf).steps, r.status = "failed") →
      (MainApp.execute_custom_test tc envOf).status = "PARTIAL") ∧
    (∀ (tc : MainApp.MainTestCase) (envOf : Nat → MainApp.SessionEnv),
      tc.steps = [] →
      (MainApp.execute_custom_test tc envOf).steps = [] ∧
      (MainApp.execute_custom_test tc envOf).status = "PASSED") ∧
    ((MainApp.execute_custom_test
        { stop_on_failure := false, steps := [mClickStep, mClickStep, mClickStep] }
        (fun i => if i = 1 then mEnvMissing else mEnvFound)).steps.length = 3 ∧
     (MainApp.execute_custom_test
        { stop_on_failure := false, steps := [mClickStep, mClickStep, mClickStep] }
        (fun i => if i = 1 then mEnvMissing else mEnvFound)).status = "PARTIAL") := by
  refine ⟨?_, ?_, ?_, ?_, by decide, by decide⟩
  · intro tc envOf h
    have hc : (MainApp.runSteps envOf 0 tc.steps).countP
        (fun s => s.status == "failed") = 0 :=
      countP_failed_all_passed _ h
    simp [MainApp.execute_custom_test, MainApp.derive_custom_status, hc]
  · intro tc envOf hne h
    have hall : ∀ r ∈ MainApp.runSteps envOf 0 tc.steps, r.status = "failed" := by
      intro r hr
      rcases runSteps_mem envOf tc.steps 0 r hr with hp | hf
      · exact absurd hp (h r hr)
      · exact hf
    have hc := countP_failed_all_failed _ hall
    have hpos : 0 < (MainApp.runSteps envOf 0 tc.steps).length :=
      List.length_pos.mpr hne
    simp only [MainApp.execute_custom_test, MainApp.derive_custom_status, hc]
    rw [if_neg (by omega), if_neg (by omega)]
  · intro tc envOf h1 h2
    obtain ⟨r1, hr1, hs1⟩ := h1
    obtain ⟨r2, hr2, hs2⟩ := h2
    have hpos : 0 < (MainApp.runSteps envOf 0 tc.steps).countP
        (fun s => s.status == "failed") :=
      List.countP_pos_iff.mpr ⟨r2, hr2, by simp [hs2]⟩
    have hlt : (MainApp.runSteps envOf 0 tc.steps).countP
        (fun s => s.status == "failed") < (MainApp.runSteps envOf 0 tc.steps).length := by
      refine lt_of_le_of_ne (List.countP_le_length _) ?_
      intro heq
      have hall := List.countP_eq_length.mp heq r1 hr1
      rw [hs1] at hall
      simp at hall
    simp only [MainApp.execute_custom_test, MainApp.derive_custom_status]
    rw [if_neg (by omega), if_pos hlt]
  · intro tc envOf hempty
    constructor <;> simp [MainApp.execute_custom_test, hempty, MainApp.runSteps,
      MainApp.derive_custom_status]

/-- Witness for claim C4 at a concrete all-passing test case. -/
theorem c4_witness :
    (MainApp.execute_custom_test
      { name := "all-pass", stop_on_failure := false, steps := [mClickStep, mClickStep] }
      (fun _ => mEnvFound)).status = "PASSED" :=
  c4_overall_status_derivation.1
    { name := "all-pass", stop_on_failure := false, steps := [mClickStep, mClickStep] }
    (fun _ => mEnvFound) (by decide)

/-- Claim C5 is false on the code it cites: in
`BankingTestRunner._execute_type` (test_runner_day6.py) a `type` step whose
`data` payload is empty clears the field, sends the empty string and is
reported `PASSED` with "Typed text successfully" — empty input is reported
as success by this runner. -/
theorem c5_counterexample :
    (({ action := "type", locator_strategy := "id", locator_value := "login_password",
        data := some "" } : Day6.D6Step).data.getD "") = "" ∧
    (Day6.execute_step {}
        { action := "type", locator_strategy := "id", locator_value := "login_password",
          data := some "" }
        { findR := .ok {} }).status = Day6.AssertionResult.PASSED ∧
    (Day6.execute_step {}
        { action := "type", locator_strategy := "id", locator_value := "login_password",
          data := some "" }
        { findR := .ok {} }).message = "Typed text successfully" := by
  exact ⟨rfl, by decide, by decide⟩

/-- Claim C5 (amended): in `CompleteTestRunner.execute_step` (main.py) a
`type` step with an empty `data` payload is `FAILED` with message
"No text provided to type" even when the element resolves and the preceding
clear succeeds; the Day-6 runner (`BankingTestRunner`) instead types the
empty string and reports `PASSED`. -/
theorem c5_main_empty_type_fails (step : MainApp.MainStep) (env : MainApp.SessionEnv)
    (el : MainApp.ElemBehavior)
    (ha : step.action = "type")
    (hd : step.data.getD "" = "")
    (hf : MainApp.find_element_smart step.locator_strategy step.locator_value env = some el)
    (hc : el.clearR = .ok ()) :
    (MainApp.execute_step step env).status = "failed" ∧
    (MainApp.execute_step step env).message = "No text provided to type" := by
  constructor <;> simp [MainApp.execute_step, ha, hd, hf, hc]

/-- Witness for the amended claim C5 at a concrete empty-payload type step
whose element resolves. -/
theorem c5_witness :
    (MainApp.execute_step
      { action := "type", locator_strategy := "id", locator_value := "user",
        data := some "" } mEnvFound).status = "failed" ∧
    (MainApp.execute_step
      { action := "type", locator_strategy := "id", locator_value := "user",
        data := some "" } mEnvFound).message = "No text provided to type" :=
  c5_main_empty_type_fails
    { action := "type", locator_strategy := "id", locator_value := "user",
      data := some "" }
    mEnvFound {} rfl rfl (by decide) rfl

/-- Claim C6: in `find_element_smart` the enumerate-all fallback runs only
when the primary strategy lookup yields nothing within its timeout (a
resolved primary element is returned as-is); when the primary lookup yields
nothing, the result is the first enumerated element whose resource id, text
or accessibility description contains the target value as a substring (or,
for a `namespace:id/name`-shaped value, whose resource id contains the
trailing name segment); and strategy `"id"` with value `"login_btn"`
resolves the element with resource id `"app:id/login_btn"` via the
fallback. -/
theorem c6_resolver_fallback :
    (∀ (lt lv : String) (env : MainApp.SessionEnv) (e : MainApp.ElemBehavior),
      env.okResult = none →
      (lt = "id" ∨ lt = "xpath" ∨ lt = "accessibility_id" ∨ lt = "class") →
      env.primaryResult = some e →
      MainApp.find_element_smart lt lv env = some e) ∧
    (∀ (lt lv : String) (env : MainApp.SessionEnv),
      env.okResult = none →
      env.primaryResult = none →
      MainApp.find_element_smart lt lv env =
        env.allElements.find? (MainApp.fallbackMatch lv)) ∧
    (∀ (lv : String) (el : MainApp.ElemBehavior),
      strIn ":id/" lv = true →
      strIn (trailingIdSegment lv) el.resource_id = true →
      MainApp.fallbackMatch lv el = true) ∧
    (MainApp.find_element_smart "id" "login_btn"
        { allElements := [{ resource_id := "app:id/login_btn" }] } =
      some { resource_id := "app:id/login_btn" }) := by
  refine ⟨?_, ?_, ?_, by decide⟩
  · intro lt lv env e hok hstrat hp
    have hcond : (lt = "id" ∨ lt = "xpath" ∨ lt = "accessibility_id" ∨ lt = "class") = True :=
      eq_true hstrat
    cases hb : MainApp.okButtonCond lv <;>
      simp [MainApp.find_element_smart, hok, hp, hb, hcond]
  · intro lt lv env hok hp
    cases hb : MainApp.okButtonCond lv <;>
      by_cases hstrat : lt = "id" ∨ lt = "xpath" ∨ lt = "accessibility_id" ∨ lt = "class" <;>
      simp [MainApp.find_element_smart, hok, hp, hb, hstrat]
  · intro lv el h1 h2
    simp [MainApp.fallbackMatch, h1, h2]

/-- Witness for claim C6: the primary lookup wins when it resolves, at a
concrete environment. -/
theorem c6_witness :
    MainApp.find_element_smart "id" "user" mEnvFound = some {} :=
  c6_resolver_fallback.1 "id" "user" mEnvFound {} rfl (Or.inl rfl) rfl

/-- Claim C7: in both step executors, every exception raised by the
underlying session during an element action call is caught at the step
boundary and converted into a step result — `CompleteTestRunner` marks it
`failed` with the exception message (via `"Error: …"`, or the type action's
inner handler `"Failed to type: …"`), `BankingTestRunner` marks it `ERROR`
with `"Error: …"` — and is never propagated to the orchestrator (both
embedded executors are total functions into step results). -/

theorem c7_exceptions_caught :
    (∀ (step : MainApp.MainStep) (env : MainApp.SessionEnv) (err : String),
      MainApp.raisesDuringAction step env err →
      (MainApp.execute_step step env).status = "failed" ∧
      ((MainApp.execute_step step env).message = "Error: " ++ err ∨
       (MainApp.execute_step step env).message = "Failed to type: " ++ err)) ∧
    (∀ (cfg : Day6.D6Config) (step : Day6.D6Step) (env : Day6.D6Env) (err : String),
      Day6.d6_raisesDuringAction cfg step env err →
      (Day6.execute_step cfg step env).status = Day6.AssertionResult.ERROR ∧
      (Day6.execute_step cfg step env).message = "Error: " ++ err) := by
  constructor
  · rintro step env err ⟨el, hf, hcase⟩
    rcases hcase with ⟨hat, hclick⟩ | ⟨hat, hty⟩ | ⟨hat, hclear⟩ | ⟨hat, hlp⟩
    · have hcond : (step.action = "click" ∨ step.action = "tap") = True := eq_true hat
      rcases hat with hat | hat <;>
        exact ⟨by simp [MainApp.execute_step, hat, hf, hclick],
               Or.inl (by simp [MainApp.execute_step, hat, hf, hclick])⟩
    · rcases hty with hclear | ⟨hclear, hd, hsend⟩
      · exact ⟨by simp [MainApp.execute_step, hat, hf, hclear],
               Or.inr (by simp [MainApp.execute_step, hat, hf, hclear])⟩
      · exact ⟨by simp [MainApp.execute_step, hat, hf, hclear, hd, hsend],
               Or.inr (by simp [MainApp.execute_step, hat, hf, hclear, hd, hsend])⟩
    · exact ⟨by simp [MainApp.execute_step, hat, hf, hclear],
             Or.inl (by simp [MainApp.execute_step, hat, hf, hclear])⟩
    · exact ⟨by simp [MainApp.execute_step, hat, hf, hlp],
             Or.inl (by simp [MainApp.execute_step, hat, hf, hlp])⟩
  · rintro cfg step env err ⟨hsm, hstrat, el, hfind, hcase⟩
    have hcond : (step.locator_strategy = "id" ∨ step.locator_strategy = "xpath" ∨
        step.locator_strategy = "accessibility_id" ∨ step.locator_strategy = "class") = True :=
      eq_true hstrat
    rcases hcase with ⟨hat, hclick⟩ | ⟨hat, hty⟩ | ⟨hat, hclear⟩
    · constructor <;>
        simp [Day6.execute_step, Day6.execute_step_body, Day6.d6_find, Day6.liftExc,
          Day6.validActions, hat, hsm, hcond, hfind, hclick, bind, Except.bind,
          Functor.map, Except.map, pure, Except.pure]
    · rcases hty with hclear | ⟨hclear, hsend⟩ <;>
        constructor <;>
          simp [Day6.execute_step, Day6.execute_step_body, Day6.d6_find, Day6.liftExc,
            Day6.validActions, hat, hsm, hcond, hfind, hclear, bind, Except.bind,
            Functor.map, Except.map, pure, Except.pure] <;>
          simp_all [bind, Except.bind, Functor.map, Except.map]
    · constructor <;>
        simp [Day6.execute_step, Day6.execute_step_body, Day6.d6_find, Day6.liftExc,
          Day6.validActions, hat, hsm, hcond, hfind, hclear, bind, Except.bind,
          Functor.map, Except.map, pure, Except.pure]

/-- Witness for claim C7: a concrete click whose session call raises is
converted to a failed step result carrying the message. -/
theorem c7_witness :
    (MainApp.execute_step mClickStep
        { primaryResult := some { clickR := .error "tap refused" } }).status = "failed" ∧
    ((MainApp.execute_step mClickStep
        { primaryResult := some { clickR := .error "tap refused" } }).message =
          "Error: " ++ "tap refused" ∨
     (MainApp.execute_step mClickStep
        { primaryResult := some { clickR := .error "tap refused" } }).message =
          "Failed to type: " ++ "tap refused") :=
  c7_exceptions_caught.1 mClickStep
    { primaryResult := some { clickR := .error "tap refused" } } "tap refused"
    ⟨{ clickR := .error "tap refused" }, by decide, Or.inl ⟨Or.inl rfl, rfl⟩⟩

/-- Claim C8: `_generate_locators` chooses the recommended locator by the
fixed precedence resource id, else accessibility id, else text, else class
name; it is never the empty string; and every element with a non-empty
resource id gets `recommended = "resource_id"`. -/
theorem c8_recommended_locator :
    (∀ e : Scanner.ElementInfo,
      (Scanner.generate_locators e).recommended =
        (if e.resource_id ≠ "" then "resource_id"
         else if e.content_desc ≠ "" then "accessibility_id"
         else if e.text ≠ "" then "text"
         else "class_name")) ∧
    (∀ e : Scanner.ElementInfo, (Scanner.generate_locators e).recommended ≠ "") ∧
    (∀ e : Scanner.ElementInfo, e.resource_id ≠ "" →
      (Scanner.generate_locators e).recommended = "resource_id") := by
  have hmain : ∀ e : Scanner.ElementInfo,
      (Scanner.generate_locators e).recommended =
        (if e.resource_id ≠ "" then "resource_id"
         else if e.content_desc ≠ "" then "accessibility_id"
         else if e.text ≠ "" then "text"
         else "class_name") := by
    intro e
    by_cases h1 : e.resource_id = "" <;> by_cases h2 : e.content_desc = "" <;>
      by_cases h3 : e.text = "" <;> simp [Scanner.generate_locators, h1, h2, h3]
  refine ⟨hmain, ?_, ?_⟩
  · intro e
    rw [hmain e]
    split
    · simp
    · split
      · simp
      · split <;> simp
  · intro e h
    rw [hmain e, if_pos h]

/-- Witness for claim C8 at a concrete element with a non-empty resource
id (and all other attributes non-empty too). -/
theorem c8_witness :
    (Scanner.generate_locators
      { class_name := "android.widget.Button", resource_id := "app:id/menu",
        text := "Menu", content_desc := "main menu" }).recommended = "resource_id" :=
  c8_recommended_locator.2.2
    { class_name := "android.widget.Button", resource_id := "app:id/menu",
      text := "Menu", content_desc := "main menu" } (by decide)

theorem swap_set_perm_a {α : Type _} (j : Nat) :
    ∀ (l : List α) (x y : α), l[j]? = some x → l[j + 1]? = some y →
      List.Perm ((l.set (j + 1) x).set j y) l := by
  induction j with
  | zero =>
    intro l x y hx hy
    cases l with
    | nil => simp at hx
    | cons c t =>
      cases t with
      | nil => simp at hy
      | cons d t2 =>
        simp at hx hy
        subst hx
        subst hy
        simpa [List.set] using List.Perm.swap _ _ t2
  | succ j ih =>
    intro l x y hx hy
    cases l with
    | nil => simp at hx
    | cons c t =>
      simp at hx hy
      simpa [List.set] using List.Perm.cons c (ih t x y hx hy)

theorem swap_set_perm_b {α : Type _} (j : Nat) :
    ∀ (l : List α) (x y : α), l[j]? = some x → l[j + 1]? = some y →
      List.Perm ((l.set j y).set (j + 1) x) l := by
  induction j with
  | zero =>
    intro l x y hx hy
    cases l with
    | nil => simp at hx
    | cons c t =>
      cases t with
      | nil => simp at hy
      | cons d t2 =>
        simp at hx hy
        subst hx
        subst hy
        simpa [List.set] using List.Perm.swap _ _ t2
  | succ j ih =>
    intro l x y hx hy
    cases l with
    | nil => simp at hx
    | cons c t =>
      simp at hx hy
      simpa [List.set] using List.Perm.cons c (ih t x y hx hy)

theorem move_step_up_perm (steps : List MainApp.MainStep) (index : Int) :
    List.Perm (MainApp.move_step_up steps index) steps := by
  unfold MainApp.move_step_up
  split
  · rename_i h
    dsimp only
    split
    · rename_i a b ha hb
      have hi : index.toNat - 1 + 1 = index.toNat := by omega
      have := swap_set_perm_a (index.toNat - 1) steps b a hb (by rw [hi]; exact ha)
      simpa [hi] using this
    · exact List.Perm.refl _
  · exact List.Perm.refl _

theorem move_step_down_perm (steps : List MainApp.MainStep) (index : Int) :
    List.Perm (MainApp.move_step_down steps index) steps := by
  unfold MainApp.move_step_down
  split
  · rename_i h
    dsimp only
    split
    · rename_i a b ha hb
      exact swap_set_perm_b index.toNat steps a b ha hb
    · exact List.Perm.refl _
  · exact List.Perm.refl _

/-- Claim C9: the builder's remove-at-index, move-up and move-down are
bounds-checked total operations that leave the step list unchanged on any
invalid index (mirroring the source's guarded `del`/swap, which never
throws), and `build_test_case` snapshots the current step list (the
source's defensive `.copy()`, giving the test case its own copy by value)
with `stop_on_failure = False`. -/
theorem c9_builder_bounds_and_snapshot :
    (∀ (steps : List MainApp.MainStep) (index : Int),
      ¬(0 ≤ index ∧ index < (steps.length : Int)) →
      MainApp.remove_step steps index = steps) ∧
    (∀ (steps : List MainApp.MainStep) (index : Int),
      ¬(0 < index ∧ index < (steps.length : Int)) →
      MainApp.move_step_up steps index = steps) ∧
    (∀ (steps : List MainApp.MainStep) (index : Int),
      ¬(0 ≤ index ∧ index < (steps.length : Int) - 1) →
      MainApp.move_step_down steps index = steps) ∧
    (∀ (name : String) (steps : List MainApp.MainStep),
      (MainApp.build_test_case name steps).steps = steps ∧
      (MainApp.build_test_case name steps).stop_on_failure = false) := by
  refine ⟨?_, ?_, ?_, fun name steps => ⟨rfl, rfl⟩⟩
  · intro steps index h
    unfold MainApp.remove_step
    rw [if_neg h]
  · intro steps index h
    unfold MainApp.move_step_up
    rw [if_neg h]
  · intro steps index h
    unfold MainApp.move_step_down
    rw [if_neg h]

/-- Witness for claim C9: the three index operations are no-ops at concrete
out-of-bounds indices. -/
theorem c9_witness :
    MainApp.remove_step [mClickStep] (-1) = [mClickStep] ∧
    MainApp.move_step_up [mClickStep] 0 = [mClickStep] ∧
    MainApp.move_step_down [mClickStep] 0 = [mClickStep] :=
  ⟨c9_builder_bounds_and_snapshot.1 [mClickStep] (-1) (by decide),
   c9_builder_bounds_and_snapshot.2.1 [mClickStep] 0 (by decide),
   c9_builder_bounds_and_snapshot.2.2.1 [mClickStep] 0 (by decide)⟩

/-- Claim C10: every builder reorder operation preserves the multiset of
steps — `move_step_up` and `move_step_down` always produce a permutation of
the step list, so any sequence of move operations leaves the list's
contents (as a multiset) and its length invariant. -/
theorem c10_moves_preserve_multiset :
    (∀ (steps : List MainApp.MainStep) (index : Int),
      List.Perm (MainApp.move_step_up steps index) steps) ∧
    (∀ (steps : List MainApp.MainStep) (index : Int),
      List.Perm (MainApp.move_step_down steps index) steps) ∧
    (∀ (ops : List MainApp.MoveOp) (steps : List MainApp.MainStep),
      List.Perm (MainApp.applyMoves ops steps) steps) ∧
    (∀ (ops : List MainApp.MoveOp) (steps : List MainApp.MainStep),
      (MainApp.applyMoves ops steps).length = steps.length) := by
  have hfold : ∀ (ops : List MainApp.MoveOp) (steps : List MainApp.MainStep),
      List.Perm (MainApp.applyMoves ops steps) steps := by
    intro ops
    induction ops with
    | nil => intro steps; simp [MainApp.applyMoves]
    | cons o rest ih =>
      intro steps
      cases o with
      | up i =>
        have hstep : MainApp.applyMoves (MainApp.MoveOp.up i :: rest) steps =
            MainApp.applyMoves rest (MainApp.move_step_up steps i) := rfl
        rw [hstep]
        exact (ih (MainApp.move_step_up steps i)).trans (move_step_up_perm steps i)
      | down i =>
        have hstep : MainApp.applyMoves (MainApp.MoveOp.down i :: rest) steps =
            MainApp.applyMoves rest (MainApp.move_step_down steps i) := rfl
        rw [hstep]
        exact (ih (MainApp.move_step_down steps i)).trans (move_step_down_perm steps i)
  exact ⟨move_step_up_perm, move_step_down_perm, hfold,
    fun ops steps => (hfold ops steps).length_eq⟩
